import Mathlib

/-!
Verification of the UK property investment prediction engine.

Shallow embedding of the source files:
  * `api/ai-predictions.js` (classes `UniversalRealTimePredictor`,
    `UniversalUKPredictor`, function `isValidUKPostcode`)
  * `api/real-time-data.js` (class `FreeRealTimeDataProvider`, functions
    `getEnhancedPropertyData`, `calculateEnhancedMetrics`)

Conventions of the embedding:
  * JS numbers are modelled as `ℚ` (the arithmetic used by the engine is
    +, -, *, /, min, max, powers and rounding, all exact on rationals);
    `Math.round` is `jsRound` below.  `parseInt` results are `Option ℤ`
    with `none` standing for `NaN`.
  * `Math.sqrt` (used only for the volatility inside `calculateRisk`) is
    not rational, so it enters as an explicit function parameter; the
    theorems below hold for every choice of that parameter.
  * `Math.random()` draws are an explicit stream parameter `rand : ℕ → ℚ`
    (the draw consumed in year `y` is `rand y`).
  * `new Date().getFullYear()` and `Date.now()` are explicit parameters
    `currentYear : ℤ` and `now : ℤ`.
  * JS string operations (`split`, `trim`, `replace`, `toUpperCase`) are
    modelled structurally on `List Char`.
  * The JS `a || b` idiom on possibly-absent numbers (falsy on `0`,
    `null` and `undefined`) is `jsOr`.
-/

namespace UKProp

/-- Source `Math.round`: round half toward positive infinity. -/
def jsRound (x : ℚ) : ℤ := ⌊x + 1/2⌋

/-- JS `a || b` for a possibly Absent/null number `a`: falls back on `none`
and on `0` (both are falsy in JS). -/
def jsOr (a : Option ℚ) (b : ℚ) : ℚ :=
  match a with
  | none => b
  | some v => if v = 0 then b else v

/-- JS `a || b` for a possibly Absent integer `a` (used for cache durations). -/
def jsOrInt (a : Option ℤ) (b : ℤ) : ℤ :=
  match a with
  | none => b
  | some v => if v = 0 then b else v

/-- JS `String.prototype.split` with a single-character separator,
on the character list of the string.  `"".split(sep)` is `[""]`, and a
trailing separator yields a trailing empty field, exactly as in JS. -/
def splitChar (sep : Char) : List Char → List (List Char)
  | [] => [[]]
  | c :: rest =>
    match splitChar sep rest with
    | [] => [[]]
    | g :: gs => if c = sep then [] :: g :: gs else (c :: g) :: gs

/-- JS `String.prototype.trim`: strip leading and trailing whitespace. -/
def trimChars (l : List Char) : List Char :=
  ((l.dropWhile Char.isWhitespace).reverse.dropWhile Char.isWhitespace).reverse

/-- JS `s.replace(/"/g, "")`: remove every double-quote character. -/
def stripQuotes (l : List Char) : List Char :=
  l.filter (fun c => c ≠ '"')

/-- JS `s.replace(/\s+/g, "").toUpperCase()`: remove whitespace, uppercase. -/
def cleanPostcode (postcode : String) : List Char :=
  (postcode.data.filter (fun c => !c.isWhitespace)).map Char.toUpper

/-- JS `parseInt` in base 10: skip leading whitespace, optional sign, then a
leading digit run; `none` models the `NaN` result when no digit is found. -/
def jsParseInt (l : List Char) : Option ℤ :=
  let l := l.dropWhile Char.isWhitespace
  let (neg, l) : Bool × List Char :=
    match l with
    | '-' :: rest => (true, rest)
    | '+' :: rest => (false, rest)
    | _ => (false, l)
  let digits := l.takeWhile Char.isDigit
  if digits = [] then none
  else
    let n : ℕ := digits.foldl (fun acc c => 10 * acc + (c.toNat - '0'.toNat)) 0
    some (if neg then -(n : ℤ) else (n : ℤ))

/-- Insertion-order histogram, modelling a JS object used as a counter
(`obj[k] = (obj[k] || 0) + 1` inside a `forEach`). -/
def bumpCount : List (String × ℕ) → String → List (String × ℕ)
  | [], k => [(k, 1)]
  | (k', n) :: rest, k =>
    if k' = k then (k', n + 1) :: rest else (k', n) :: bumpCount rest k

/-- Frequency histogram over a list of keys (insertion order). -/
def histogram (l : List String) : List (String × ℕ) :=
  l.foldl bumpCount []

/-- Lookup of `obj[k]` in a histogram object; `none` is JS `undefined`. -/
def tyGet (types : List (String × ℕ)) (k : String) : Option ℕ :=
  (types.find? (fun p => p.1 = k)).map (·.2)

/-- Source `AreaProfile`: one entry of the static area table
(`initializeComprehensiveUKAreaData`).  The source field `yield` is
renamed `yieldPct`. -/
structure AreaProfile where
  region : String
  basePrice : ℚ
  growthRate : ℚ
  yieldPct : ℚ
  riskFactor : ℚ
  deriving DecidableEq

/-- The comprehensive UK area table of `UniversalRealTimePredictor`
(`initializeComprehensiveUKAreaData`), as an insertion-ordered
association list. -/
def areaTable : List (String × AreaProfile) :=
  [ ("E", ⟨"London East", 520000, 4.2, 3.8, 1.1⟩),
    ("EC", ⟨"London City", 780000, 3.8, 3.2, 0.9⟩),
    ("N", ⟨"London North", 610000, 4.0, 3.5, 1.0⟩),
    ("NW", ⟨"London Northwest", 690000, 3.9, 3.4, 0.95⟩),
    ("SE", ⟨"London Southeast", 480000, 4.3, 4.1, 1.05⟩),
    ("SW", ⟨"London Southwest", 750000, 3.7, 3.1, 0.9⟩),
    ("W", ⟨"London West", 820000, 3.5, 2.9, 0.85⟩),
    ("WC", ⟨"London West Central", 950000, 3.2, 2.8, 0.8⟩),
    ("M", ⟨"Manchester", 280000, 5.2, 5.8, 1.3⟩),
    ("B", ⟨"Birmingham", 240000, 4.8, 6.2, 1.4⟩),
    ("L", ⟨"Liverpool", 180000, 5.5, 7.1, 1.6⟩),
    ("LS", ⟨"Leeds", 220000, 4.9, 6.0, 1.3⟩),
    ("S", ⟨"Sheffield", 195000, 4.7, 6.8, 1.4⟩),
    ("NG", ⟨"Nottingham", 210000, 4.5, 6.3, 1.35⟩),
    ("LE", ⟨"Leicester", 200000, 4.6, 6.5, 1.4⟩),
    ("CV", ⟨"Coventry", 240000, 4.5, 6.0, 1.3⟩),
    ("WV", ⟨"Wolverhampton", 190000, 4.7, 6.7, 1.45⟩),
    ("WS", ⟨"Walsall", 185000, 4.6, 6.9, 1.5⟩),
    ("G", ⟨"Glasgow", 170000, 3.8, 7.2, 1.5⟩),
    ("EH", ⟨"Edinburgh", 350000, 4.1, 5.1, 1.1⟩),
    ("AB", ⟨"Aberdeen", 280000, 2.9, 5.8, 1.8⟩),
    ("DD", ⟨"Dundee", 160000, 3.5, 7.5, 1.6⟩),
    ("FK", ⟨"Falkirk", 145000, 3.2, 7.8, 1.7⟩),
    ("KY", ⟨"Kirkcaldy", 140000, 3.0, 8.0, 1.8⟩),
    ("PA", ⟨"Paisley", 155000, 3.4, 7.6, 1.6⟩),
    ("PH", ⟨"Perth", 185000, 3.6, 6.9, 1.4⟩),
    ("CF", ⟨"Cardiff", 280000, 4.2, 5.5, 1.2⟩),
    ("SA", ⟨"Swansea", 180000, 3.8, 6.8, 1.5⟩),
    ("NP", ⟨"Newport", 220000, 4.0, 6.1, 1.3⟩),
    ("LL", ⟨"Llandudno", 200000, 3.5, 6.5, 1.4⟩),
    ("SY", ⟨"Shrewsbury", 240000, 3.7, 5.9, 1.2⟩),
    ("NE", ⟨"Newcastle", 190000, 4.3, 6.9, 1.4⟩),
    ("SR", ⟨"Sunderland", 150000, 4.1, 7.8, 1.7⟩),
    ("DL", ⟨"Darlington", 165000, 3.9, 7.2, 1.5⟩),
    ("TS", ⟨"Cleveland", 145000, 4.0, 8.1, 1.8⟩),
    ("DH", ⟨"Durham", 175000, 4.2, 7.0, 1.4⟩),
    ("BS", ⟨"Bristol", 380000, 4.4, 4.8, 1.1⟩),
    ("BA", ⟨"Bath", 520000, 3.6, 3.9, 0.95⟩),
    ("EX", ⟨"Exeter", 320000, 4.0, 5.2, 1.15⟩),
    ("PL", ⟨"Plymouth", 220000, 3.8, 6.1, 1.3⟩),
    ("TR", ⟨"Truro", 280000, 3.5, 5.8, 1.2⟩),
    ("TQ", ⟨"Torquay", 250000, 3.6, 5.9, 1.25⟩),
    ("BN", ⟨"Brighton", 480000, 3.9, 4.2, 1.05⟩),
    ("GU", ⟨"Guildford", 620000, 3.4, 3.6, 0.9⟩),
    ("RG", ⟨"Reading", 450000, 3.7, 4.1, 1.0⟩),
    ("SL", ⟨"Slough", 420000, 3.8, 4.3, 1.05⟩),
    ("OX", ⟨"Oxford", 580000, 3.5, 3.8, 0.95⟩),
    ("HP", ⟨"High Wycombe", 480000, 3.6, 4.0, 1.0⟩),
    ("MK", ⟨"Milton Keynes", 360000, 4.1, 4.8, 1.15⟩),
    ("CB", ⟨"Cambridge", 580000, 3.5, 3.8, 0.9⟩),
    ("NR", ⟨"Norwich", 260000, 4.0, 5.7, 1.2⟩),
    ("IP", ⟨"Ipswich", 240000, 3.8, 5.9, 1.25⟩),
    ("PE", ⟨"Peterborough", 210000, 4.2, 6.3, 1.3⟩),
    ("LU", ⟨"Luton", 320000, 4.0, 5.1, 1.2⟩),
    ("DE", ⟨"Derby", 195000, 4.4, 6.6, 1.35⟩),
    ("NN", ⟨"Northampton", 250000, 4.1, 5.8, 1.25⟩),
    ("DY", ⟨"Dudley", 200000, 4.6, 6.5, 1.4⟩),
    ("WR", ⟨"Worcester", 230000, 4.2, 6.0, 1.3⟩),
    ("HU", ⟨"Hull", 140000, 4.8, 8.2, 1.7⟩),
    ("YO", ⟨"York", 290000, 4.0, 5.5, 1.2⟩),
    ("HX", ⟨"Halifax", 165000, 4.5, 7.1, 1.5⟩),
    ("BD", ⟨"Bradford", 155000, 4.7, 7.5, 1.6⟩),
    ("HD", ⟨"Huddersfield", 170000, 4.4, 7.0, 1.5⟩),
    ("PR", ⟨"Preston", 165000, 4.6, 7.2, 1.5⟩),
    ("BB", ⟨"Blackburn", 140000, 4.8, 8.0, 1.7⟩),
    ("BL", ⟨"Bolton", 185000, 4.7, 6.8, 1.4⟩),
    ("FY", ⟨"Blackpool", 130000, 4.3, 8.5, 1.9⟩),
    ("BT", ⟨"Belfast", 160000, 4.2, 7.3, 1.6⟩),
    ("DEFAULT", ⟨"UK Average", 280000, 4.0, 5.5, 1.2⟩) ]

/-- Source `this.areaData[k]`: property lookup in the area table
(`undefined`, i.e. `none`, when the key is absent). -/
def areaDataGet (k : String) : Option AreaProfile :=
  (areaTable.find? (fun p => p.1 = k)).map (·.2)

/-- The `DEFAULT` profile of the comprehensive table. -/
def defaultProfile : AreaProfile := ⟨"UK Average", 280000, 4.0, 5.5, 1.2⟩

/-- Source `this.areaData[areaCode] || this.areaData["DEFAULT"]`. -/
def areaLookup (k : String) : AreaProfile :=
  (areaDataGet k).getD defaultProfile

/-- The regex test `/^[A-Z]/` on a single character. -/
def isUpperLetter (c : Char) : Bool := 'A' ≤ c && c ≤ 'Z'

/-- The regex test `/^[A-Z]{2}/.test(s)`. -/
def testTwoUpper : List Char → Bool
  | a :: b :: _ => isUpperLetter a && isUpperLetter b
  | _ => false

/-- The regex test `/^[A-Z]/.test(s)`. -/
def testOneUpper : List Char → Bool
  | a :: _ => isUpperLetter a
  | _ => false

/-- Source `UniversalRealTimePredictor.extractAreaCode` on the cleaned character
list: try the 2-letter prefix (with the `/^[A-Z]{2}/` guard), then the
1-letter prefix (with the `/^[A-Z]/` guard), else `"DEFAULT"`. -/
def extractAreaCodeList (cleaned : List Char) : String :=
  let twoLetter := String.mk (cleaned.take 2)
  if (areaDataGet twoLetter).isSome && testTwoUpper (cleaned.take 2) then
    twoLetter
  else
    let oneLetter := String.mk (cleaned.take 1)
    if (areaDataGet oneLetter).isSome && testOneUpper (cleaned.take 1) then
      oneLetter
    else "DEFAULT"

/-- Source `UniversalRealTimePredictor.extractAreaCode(postcode)`. -/
def extractAreaCode (postcode : String) : String :=
  extractAreaCodeList (cleanPostcode postcode)

/-- Modelled from the spec: area-code resolution as §4.4 step 1 and §8 word
it — the 2-letter prefix of the cleaned postcode if it is a key of the
area table, else the 1-letter prefix if that is a key, else `"DEFAULT"`
(no regex guards). -/
def extractAreaCodeSpec (postcode : String) : String :=
  let cleaned := cleanPostcode postcode
  let twoLetter := String.mk (cleaned.take 2)
  if (areaDataGet twoLetter).isSome then twoLetter
  else
    let oneLetter := String.mk (cleaned.take 1)
    if (areaDataGet oneLetter).isSome then oneLetter
    else "DEFAULT"

/-- The small fallback area table of `UniversalUKPredictor`. -/
def areaTableUK : List (String × AreaProfile) :=
  [ ("M", ⟨"Manchester", 280000, 5.2, 5.8, 1.3⟩),
    ("SW", ⟨"London Southwest", 750000, 3.7, 3.1, 0.9⟩),
    ("B", ⟨"Birmingham", 240000, 4.8, 6.2, 1.4⟩),
    ("L", ⟨"Liverpool", 180000, 5.5, 7.1, 1.6⟩),
    ("G", ⟨"Glasgow", 170000, 3.8, 7.2, 1.5⟩),
    ("EH", ⟨"Edinburgh", 350000, 4.1, 5.1, 1.1⟩),
    ("CF", ⟨"Cardiff", 280000, 4.2, 5.5, 1.2⟩),
    ("BT", ⟨"Belfast", 160000, 4.2, 7.3, 1.6⟩),
    ("DEFAULT", ⟨"UK Average", 280000, 4.0, 5.5, 1.2⟩) ]

/-- Lookup in the fallback table of `UniversalUKPredictor`. -/
def areaDataGetUK (k : String) : Option AreaProfile :=
  (areaTableUK.find? (fun p => p.1 = k)).map (·.2)

/-- Source `UniversalUKPredictor.extractAreaCode(postcode)` (no regex guards in
this variant). -/
def extractAreaCodeUK (postcode : String) : String :=
  let cleaned := cleanPostcode postcode
  let twoLetter := String.mk (cleaned.take 2)
  let oneLetter := String.mk (cleaned.take 1)
  if (areaDataGetUK twoLetter).isSome then twoLetter
  else if (areaDataGetUK oneLetter).isSome then oneLetter
  else "DEFAULT"

/-- Key shapes occurring in the area tables: 1 or 2 uppercase letters, or
the literal `"DEFAULT"`. -/
def keyShape (k : String) : Bool :=
  match k.data with
  | [a] => isUpperLetter a
  | [a, b] => isUpperLetter a && isUpperLetter b
  | _ => k = "DEFAULT"

theorem areaTable_keys_shape : ∀ p ∈ areaTable, keyShape p.1 = true := by
  decide

theorem areaDataGet_shape {k : String} (h : (areaDataGet k).isSome) :
    keyShape k = true := by
  unfold areaDataGet at h
  rw [Option.isSome_map'] at h
  obtain ⟨p, hp⟩ := Option.isSome_iff_exists.mp h
  have hmem := List.mem_of_find?_eq_some hp
  have hkey := List.find?_some hp
  have := areaTable_keys_shape p hmem
  simp only [decide_eq_true_eq] at hkey
  rwa [hkey] at this

/-- C3: `extractAreaCode` is total and deterministic (it is a Lean
function), and for every input string it returns the 2-letter prefix of
the cleaned postcode when that is a key of the area table, else the
1-letter prefix when that is a key, else `"DEFAULT"`: the source's extra
regex guards never change the outcome.  The same holds definitionally for
the `UniversalUKPredictor` variant. -/
theorem extractAreaCode_correct (postcode : String) :
    extractAreaCode postcode = extractAreaCodeSpec postcode ∧
    extractAreaCodeUK postcode =
      (let cleaned := cleanPostcode postcode
       let twoLetter := String.mk (cleaned.take 2)
       let oneLetter := String.mk (cleaned.take 1)
       if (areaDataGetUK twoLetter).isSome then twoLetter
       else if (areaDataGetUK oneLetter).isSome then oneLetter
       else "DEFAULT") := by
  refine ⟨?_, rfl⟩
  unfold extractAreaCode extractAreaCodeSpec extractAreaCodeList
  cases hc : cleanPostcode postcode with
  | nil =>
    have h0 : (areaDataGet (String.mk [])).isSome = false := by decide
    simp [h0]
  | cons a rest =>
    cases rest with
    | nil =>
      simp only [List.take]
      by_cases h1 : (areaDataGet (String.mk [a])).isSome
      · have hs := areaDataGet_shape h1
        unfold keyShape at hs
        simp only [String.mk] at hs ⊢
        simp [testOneUpper, testTwoUpper, h1, hs]
      · simp [testOneUpper, testTwoUpper, h1]
    | cons b rest2 =>
      simp only [List.take]
      by_cases h2 : (areaDataGet (String.mk [a, b])).isSome
      · have hs := areaDataGet_shape h2
        unfold keyShape at hs
        simp only [String.mk] at hs ⊢
        simp [testTwoUpper, h2, hs]
      · by_cases h1 : (areaDataGet (String.mk [a])).isSome
        · have hs := areaDataGet_shape h1
          unfold keyShape at hs
          simp only [String.mk] at hs ⊢
          simp [testTwoUpper, testOneUpper, h1, h2, hs]
        · simp [testTwoUpper, testOneUpper, h1, h2]

/-- Source `dataSources` of an economic snapshot: per-field `"live"`/`"fallback"`
markers, in the insertion order of `getAllEconomicData`. -/
structure DataSources where
  bankRate : String
  inflation : String
  unemployment : String
  gdpGrowth : String
  deriving DecidableEq

/-- Source `Object.values(dataSources).filter(s => s === "live").length`. -/
def liveCount (ds : DataSources) : ℕ :=
  ([ds.bankRate, ds.inflation, ds.unemployment, ds.gdpGrowth].filter
    (fun s => s = "live")).length

/-- The economic snapshot built by `getAllEconomicData` (`lastUpdated`
timestamp omitted: no logic reads it). -/
structure EconomicData where
  baseRate : ℚ
  inflation : ℚ
  unemploymentRate : ℚ
  gdpGrowth : ℚ
  dataSources : DataSources
  deriving DecidableEq

/-- A crime snapshot from `getPoliceData`.  `source` is `none` when the
object carries no `source` property (the live snapshot) and
`some "fallback"` for the fallback snapshot; `lastUpdated` omitted. -/
structure CrimeData where
  totalCrimes : ℕ
  crimeRate : ℚ
  categories : List (String × ℕ)
  source : Option String
  deriving DecidableEq

/-- Source `metrics.economicImpact` of `calculateEnhancedMetrics`. -/
structure EconomicImpact where
  interestRateEffect : ℚ
  inflationEffect : ℚ
  unemploymentEffect : ℚ
  deriving DecidableEq

/-- Source `metrics.crimeImpact` of `calculateEnhancedMetrics`. -/
structure CrimeImpact where
  crimeRate : ℚ
  safetyScore : ℚ
  deriving DecidableEq

/-- Source `enhancedMetrics`: every field may be absent (`undefined`/`null`). -/
structure EnhancedMetrics where
  averagePrice : Option ℚ
  priceGrowth : Option ℚ
  propertyTypes : Option (List (String × ℕ))
  economicImpact : Option EconomicImpact
  crimeImpact : Option CrimeImpact
  deriving DecidableEq

/-- The metrics object with no field set (`{}`). -/
def emptyMetrics : EnhancedMetrics := ⟨none, none, none, none, none⟩

/-- One sales record parsed by `parseLandRegistryCSV`.  `price` is
`Option ℤ`: `none` models the `NaN` produced by `parseInt` on a
non-numeric field. -/
structure SaleRecord where
  price : Option ℤ
  date : String
  propertyType : String
  newBuild : String
  tenure : String
  address : String
  postcode : String
  deriving DecidableEq

/-- Source `EnhancedPropertyData` as consumed by the predictor constructor:
`this.economicData`, `this.recentSales` (already defaulted to `[]`),
`this.crimeData`, `this.enhancedMetrics` (already defaulted to `{}`). -/
structure EnhancedData where
  economicData : Option EconomicData
  recentSales : List SaleRecord
  crimeData : Option CrimeData
  enhancedMetrics : EnhancedMetrics
  deriving DecidableEq

/-- Source `UniversalRealTimePredictor.calculateUniversalGrowth`: real price
growth decayed by `0.9^(year-1)` when present, else the area-table rate. -/
def calculateUniversalGrowth (m : EnhancedMetrics) (areaCode : String)
    (year : ℕ) : ℚ :=
  match m.priceGrowth with
  | some g => g * (0.9 : ℚ) ^ (year - 1)
  | none => (areaLookup areaCode).growthRate

/-- Source `UniversalRealTimePredictor.calculateRealEconomicAdjustment`. -/
def calculateRealEconomicAdjustment (econ : Option EconomicData)
    (year : ℕ) : ℚ :=
  match econ with
  | none => 0
  | some e =>
    let rateImpact := (6 - e.baseRate) * 0.4
    let inflationImpact := (e.inflation - 2.5) * 0.25
    let gdpImpact := e.gdpGrowth * 0.6
    let unemploymentImpact := (5 - e.unemploymentRate) * 0.2
    let decay := (0.85 : ℚ) ^ (year - 1)
    (rateImpact - inflationImpact + gdpImpact + unemploymentImpact) * decay

/-- The `crimeAdjustment` term of `calculateMarketConditions`: applied only
when crime data is present and not the fallback snapshot;
`safetyScore = this.enhancedMetrics.crimeImpact?.safetyScore || 5`. -/
def crimeAdjustment (crime : Option CrimeData) (m : EnhancedMetrics) : ℚ :=
  match crime with
  | none => 0
  | some c =>
    if c.source ≠ some "fallback" then
      let safetyScore := jsOr (m.crimeImpact.map (·.safetyScore)) 5
      (safetyScore - 5) * 0.2
    else 0

/-- The `activityAdjustment` term of `calculateMarketConditions`. -/
def activityAdjustment (sales : List SaleRecord) : ℚ :=
  if sales.length > 0 then min ((sales.length : ℚ) / 10) 0.5 else 0

/-- Source `UniversalRealTimePredictor.calculateMarketConditions` (the `year`
parameter is unused in the source as well). -/
def calculateMarketConditions (crime : Option CrimeData)
    (m : EnhancedMetrics) (sales : List SaleRecord) (_year : ℕ) : ℚ :=
  crimeAdjustment crime m + activityAdjustment sales

/-- Source `["E","EC","N","NW","SE","SW","W","WC"].includes(areaCode)`. -/
def londonCodes : List String := ["E", "EC", "N", "NW", "SE", "SW", "W", "WC"]

/-- Source `["M","L","LS","S","NE"]` (northern powerhouse). -/
def highGrowthNorth : List String := ["M", "L", "LS", "S", "NE"]

/-- Source `["G","EH","AB","DD"]` (Scottish cities). -/
def scotlandCodes : List String := ["G", "EH", "AB", "DD"]

/-- Source `["CF","SA","NP"]` (Welsh cities). -/
def walesCodes : List String := ["CF", "SA", "NP"]

/-- Source `UniversalRealTimePredictor.calculateLocalFactors`.  The single
`Math.random()` draw of the call is the explicit argument `r`; the source
adds `(r - 0.5) * 0.3`. -/
def calculateLocalFactors (m : EnhancedMetrics) (postcode : String)
    (_year : ℕ) (r : ℚ) : ℚ :=
  let areaCode := extractAreaCode postcode
  let propertyMixAdjustment : ℚ :=
    match m.propertyTypes with
    | none => 0
    | some types =>
      let flatsDominate :=
        match tyGet types "F" with
        | none => false
        | some f =>
          f > (tyGet types "D").getD 0 + (tyGet types "S").getD 0 +
            (tyGet types "T").getD 0
      (if flatsDominate then (-0.3 : ℚ) else 0) +
        (if (tyGet types "D").getD 0 > 0 then (0.2 : ℚ) else 0)
  let areaSpecificAdjustment : ℚ :=
    (if areaCode ∈ londonCodes then (0.5 : ℚ) else 0) +
    (if areaCode ∈ highGrowthNorth then (0.4 : ℚ) else 0) +
    (if areaCode ∈ scotlandCodes then (0.2 : ℚ) else 0) +
    (if areaCode ∈ walesCodes then (0.3 : ℚ) else 0)
  propertyMixAdjustment + areaSpecificAdjustment + (r - 0.5) * 0.3

/-- Source `UniversalRealTimePredictor.calculateCurrentYield`. -/
def calculateCurrentYield (basePrice : ℚ) (areaCode : String) : ℚ :=
  let areaData := areaLookup areaCode
  let priceAdjustment : ℚ :=
    if basePrice > 500000 then -1.5 else if basePrice < 200000 then 1.5 else 0
  max (areaData.yieldPct + priceAdjustment) 2.0

/-- Source `UniversalRealTimePredictor.calculateYieldChange`. -/
def calculateYieldChange (econ : Option EconomicData) (priceGrowth : ℚ)
    (year : ℕ) : ℚ :=
  let baseYieldChange := -priceGrowth * 0.1
  let rentGrowthAdjustment := priceGrowth * 0.3
  let rateImpact : ℚ :=
    match econ with
    | some e => (e.baseRate - 4) * 0.1
    | none => 0
  (baseYieldChange + rentGrowthAdjustment + rateImpact) / (year : ℚ)

/-- Source `UniversalRealTimePredictor.getDataQualityScore`. -/
def getDataQualityScore (d : EnhancedData) : ℚ :=
  let base : ℚ := 0.7
  let withEcon := base +
    (match d.economicData with
     | some e => (liveCount e.dataSources : ℚ) * 0.05
     | none => 0)
  let withSales := withEcon +
    (if d.recentSales.length > 0 then
      min ((d.recentSales.length : ℚ) / 10) 0.15
     else 0)
  let withCrime := withSales +
    (match d.crimeData with
     | some c => if c.source ≠ some "fallback" then (0.05 : ℚ) else 0
     | none => 0)
  min withCrime 1.0

/-- Source `UniversalRealTimePredictor.calculateUniversalConfidence`. -/
def calculateUniversalConfidence (d : EnhancedData) (year : ℕ)
    (areaCode : String) : ℚ :=
  let c0 : ℚ := 0.9 - (year : ℚ) * 0.05
  let c1 := c0 * getDataQualityScore d
  let c2 := if areaCode = "DEFAULT" then c1 * 0.75 else c1 * 0.95
  let c3 := if d.recentSales.length > 5 then c2 + 0.05 else c2
  let c4 :=
    match d.economicData with
    | some e => if e.dataSources.bankRate = "live" then c3 + 0.03 else c3
    | none => c3
  max (min c4 0.95) 0.5

/-- One `YearPrediction` as pushed by `generatePredictions`. -/
structure YearPrediction where
  year : ℤ
  predictedPrice : ℤ
  priceChangePercent : ℚ
  predictedYield : ℚ
  confidence : ℚ
  dataQuality : ℚ
  areaCoverage : String
  deriving DecidableEq

/-- One iteration of the `for (let year = 1; year <= 5; year++)` loop of
`generatePredictions`: from the running `currentPrice`, produce the pushed
`YearPrediction` and the updated price. -/
def predStep (rand : ℕ → ℚ) (currentYear : ℤ) (d : EnhancedData)
    (postcode areaCode : String) (currentYield : ℚ) (year : ℕ)
    (currentPrice : ℚ) : YearPrediction × ℚ :=
  let baseGrowth := calculateUniversalGrowth d.enhancedMetrics areaCode year
  let economicAdjustment := calculateRealEconomicAdjustment d.economicData year
  let marketConditionsAdjustment :=
    calculateMarketConditions d.crimeData d.enhancedMetrics d.recentSales year
  let localFactorsAdjustment :=
    calculateLocalFactors d.enhancedMetrics postcode year (rand year)
  let totalGrowth :=
    (baseGrowth + economicAdjustment + marketConditionsAdjustment +
      localFactorsAdjustment) * (0.94 : ℚ) ^ (year - 1)
  let newPrice := currentPrice * (1 + totalGrowth / 100)
  let yieldChange := calculateYieldChange d.economicData totalGrowth year
  let predictedYield := max (currentYield + yieldChange) 1.5
  let confidence := calculateUniversalConfidence d year areaCode
  (⟨currentYear + year,
    jsRound newPrice,
    (jsRound (totalGrowth * 100) : ℚ) / 100,
    (jsRound (predictedYield * 100) : ℚ) / 100,
    (jsRound (confidence * 100) : ℚ) / 100,
    getDataQualityScore d,
    if areaCode = "DEFAULT" then "estimated" else "detailed"⟩,
   newPrice)

/-- The loop of `generatePredictions` over the remaining year indices. -/
def genAux (rand : ℕ → ℚ) (currentYear : ℤ) (d : EnhancedData)
    (postcode areaCode : String) (currentYield : ℚ) :
    List ℕ → ℚ → List YearPrediction
  | [], _ => []
  | y :: ys, currentPrice =>
    let s := predStep rand currentYear d postcode areaCode currentYield y
      currentPrice
    s.1 :: genAux rand currentYear d postcode areaCode currentYield ys s.2

/-- Source `UniversalRealTimePredictor.generatePredictions(postcode)`.
`rand` is the `Math.random()` stream (draw for year `y` is `rand y`),
`currentYear` is `new Date().getFullYear()`. -/
def generatePredictions (rand : ℕ → ℚ) (currentYear : ℤ) (d : EnhancedData)
    (postcode : String) : List YearPrediction :=
  let areaCode := extractAreaCode postcode
  let areaData := areaLookup areaCode
  let basePrice := jsOr d.enhancedMetrics.averagePrice areaData.basePrice
  let currentYield := calculateCurrentYield basePrice areaCode
  genAux rand currentYear d postcode areaCode currentYield [1, 2, 3, 4, 5]
    basePrice

/-- Source `UniversalRealTimePredictor.calculateRisk(predictions, postcode)`.
`volatilityFn` stands for `Math.sqrt` composed with the mean squared
deviation (`calculateVolatility`); it is a parameter because the square
root is irrational.  The source rounds and clamps, so the result is the
integer `Math.min(Math.max(Math.round(risk), 1), 10)`. -/
def calculateRisk (volatilityFn : List ℚ → ℚ) (d : EnhancedData)
    (predictions : List YearPrediction) (postcode : String) : ℤ :=
  let areaCode := extractAreaCode postcode
  let areaData := areaLookup areaCode
  let changes := predictions.map (·.priceChangePercent)
  let avgGrowth := changes.sum / (predictions.length : ℚ)
  let volatility := volatilityFn changes
  let risk : ℚ := 5
  let risk := risk + (areaData.riskFactor - 1) * 3
  let risk := risk + (if avgGrowth > 6 then (1.5 : ℚ) else 0)
  let risk := risk + (if avgGrowth < 1 then (2 : ℚ) else 0)
  let risk := risk + volatility * 0.5
  let risk := risk +
    (match d.economicData with
     | some e =>
       (if e.baseRate > 6 then (1 : ℚ) else 0) +
       (if e.inflation > 5 then (0.5 : ℚ) else 0) +
       (if e.unemploymentRate > 6 then (0.5 : ℚ) else 0)
     | none => 0)
  let risk := risk +
    (match d.crimeData with
     | some c => if c.crimeRate > 500 then (1 : ℚ) else 0
     | none => 0)
  let risk := risk + (1 - getDataQualityScore d) * 2
  let risk := risk + (if areaCode = "DEFAULT" then (0.5 : ℚ) else 0)
  min (max (jsRound risk) 1) 10

/-- The recommendation object returned by `generateRecommendation`. -/
structure Recommendation where
  recommendation : String
  score : ℚ
  reasoning : List String
  confidence : ℤ
  dataQuality : ℤ
  areaSpecific : String
  areaCoverage : String
  deriving DecidableEq

/-- JS `String.prototype.includes`: substring containment on character
lists. -/
def containsSub (needle : List Char) : List Char → Bool
  | [] => needle.isPrefixOf []
  | l@(_ :: rest) => needle.isPrefixOf l || containsSub needle rest

/-- The score/reasoning accumulation phase of
`UniversalRealTimePredictor.generateRecommendation`, before the label is
chosen.  Returns `(score, reasoning)`. -/
def recommendationScore (d : EnhancedData)
    (predictions : List YearPrediction) (riskScore : ℤ)
    (postcode : String) : ℚ × List String :=
  let areaCode := extractAreaCode postcode
  let areaData := areaLookup areaCode
  let avgGrowth :=
    (predictions.map (·.priceChangePercent)).sum / (predictions.length : ℚ)
  let avgYield :=
    (predictions.map (·.predictedYield)).sum / (predictions.length : ℚ)
  let score : ℚ := 5
  let reasoning : List String := []
  let (score, reasoning) :=
    if avgGrowth > 5 then
      (score + 2, reasoning ++ ["Strong growth potential identified"])
    else if avgGrowth > 3 then
      (score + 1, reasoning ++ ["Moderate growth expected"])
    else if avgGrowth < 1 then
      (score - 2, reasoning ++ ["Limited growth potential"])
    else (score, reasoning)
  let (score, reasoning) :=
    if avgYield > 6 then
      (score + 2, reasoning ++ ["Excellent rental yield opportunity"])
    else if avgYield > 4.5 then
      (score + 1, reasoning ++ ["Good rental yield potential"])
    else if avgYield < 3 then
      (score - 1, reasoning ++ ["Lower rental yield expected"])
    else (score, reasoning)
  let (score, reasoning) :=
    if riskScore < 4 then
      (score + 1, reasoning ++ ["Low risk investment"])
    else if riskScore > 7 then
      (score - 2, reasoning ++ ["Higher risk investment"])
    else (score, reasoning ++ ["Moderate risk level"])
  let (score, reasoning) :=
    match d.economicData with
    | none => (score, reasoning)
    | some e =>
      let (score, reasoning) :=
        if e.baseRate < 4 then
          (score + 0.5, reasoning ++ ["Favorable interest rate environment"])
        else if e.baseRate > 6 then
          (score - 0.5, reasoning ++ ["High interest rate headwind"])
        else (score, reasoning)
      if e.inflation < 3 then
        (score, reasoning ++ ["Stable inflation environment"])
      else if e.inflation > 5 then
        (score - 0.5, reasoning ++ ["High inflation concern"])
      else (score, reasoning)
  let reasoning :=
    if containsSub "London".data areaData.region.data then
      reasoning ++ ["London market premium"]
    else reasoning
  let reasoning :=
    if areaCode ∈ (["M", "L", "LS", "S"] : List String) then
      reasoning ++ ["Northern powerhouse growth area"]
    else reasoning
  let reasoning :=
    if areaCode ∈ (["G", "EH"] : List String) then
      reasoning ++ ["Major Scottish city market"]
    else reasoning
  let reasoning :=
    if areaCode ∈ (["CF", "SA"] : List String) then
      reasoning ++ ["Welsh capital region"]
    else reasoning
  let (score, reasoning) :=
    if d.recentSales.length > 10 then
      (score + 0.3, reasoning ++ ["Active local market with real sales data"])
    else if d.recentSales.length < 3 then
      (score - 0.2, reasoning ++ ["Limited recent market activity"])
    else (score, reasoning)
  let (score, reasoning) :=
    match d.crimeData with
    | none => (score, reasoning)
    | some c =>
      if c.source ≠ some "fallback" then
        let safetyScore :=
          jsOr (d.enhancedMetrics.crimeImpact.map (·.safetyScore)) 5
        if safetyScore > 7 then
          (score, reasoning ++ ["Low crime area advantage"])
        else if safetyScore < 3 then
          (score - 0.5, reasoning ++ ["Higher crime area concern"])
        else (score, reasoning)
      else (score, reasoning)
  let reasoning :=
    if getDataQualityScore d > 0.8 then
      reasoning ++ ["Based on comprehensive real-time analysis"]
    else if areaCode = "DEFAULT" then
      reasoning ++ ["Estimate based on UK averages"]
    else reasoning ++ ["Based on detailed area analysis"]
  (score, reasoning)

/-- The label chain of `generateRecommendation`: sequential `if`/`else if`
starting from `"HOLD"`. -/
def recommendationLabel (score : ℚ) : String :=
  if score ≥ 7.5 then "STRONG BUY"
  else if score ≥ 6 then "BUY"
  else if score ≤ 3 then "SELL"
  else if score ≤ 2 then "STRONG SELL"
  else "HOLD"

/-- Source `UniversalRealTimePredictor.generateRecommendation`.  The
`economicContext` field of the result (a formatted display string never
read by any logic) is omitted from the model. -/
def generateRecommendation (d : EnhancedData)
    (predictions : List YearPrediction) (riskScore : ℤ)
    (postcode : String) : Recommendation :=
  let areaCode := extractAreaCode postcode
  let areaData := areaLookup areaCode
  let sr := recommendationScore d predictions riskScore postcode
  let dataQuality := getDataQualityScore d
  { recommendation := recommendationLabel sr.1
    score := (jsRound (sr.1 * 10) : ℚ) / 10
    reasoning := sr.2
    confidence := jsRound (((10 - riskScore : ℤ) : ℚ) * 8 + dataQuality * 20)
    dataQuality := jsRound (dataQuality * 100)
    areaSpecific := areaData.region
    areaCoverage := if areaCode = "DEFAULT" then "estimated" else "detailed" }

/-- The two maps of `FreeRealTimeDataProvider`: `this.cache` and
`this.cacheExpiry`, keyed by string, for entries of type `α`. -/
structure CacheState (α : Type) where
  cache : String → Option α
  cacheExpiry : String → Option ℤ

/-- A cache with no entries. -/
def emptyCache (α : Type) : CacheState α := ⟨fun _ => none, fun _ => none⟩

/-- Deleting a key from both maps
(`this.cache.delete(key); this.cacheExpiry.delete(key)`). -/
def eraseKey {α : Type} (st : CacheState α) (k : String) : CacheState α :=
  ⟨fun k' => if k' = k then none else st.cache k',
   fun k' => if k' = k then none else st.cacheExpiry k'⟩

/-- Source `FreeRealTimeDataProvider.isCached(key)`: `!expiry` is falsy-check
(`undefined` or `0`); a lookup past the expiry deletes the entry from both
maps and reports `false`; otherwise report `this.cache.has(key)`.
Returns the boolean together with the (possibly updated) state. -/
def isCached {α : Type} (st : CacheState α) (now : ℤ) (k : String) :
    Bool × CacheState α :=
  match st.cacheExpiry k with
  | none => (false, st)
  | some e =>
    if e = 0 then (false, st)
    else if now > e then (false, eraseKey st k)
    else ((st.cache k).isSome, st)

/-- Source `FreeRealTimeDataProvider.getFromCache(key)` (`this.cache.get(key)`). -/
def getFromCache {α : Type} (st : CacheState α) (k : String) : Option α :=
  st.cache k

/-- The configured `this.cacheDuration` table (milliseconds). -/
def cacheDuration (k : String) : Option ℤ :=
  if k = "bankRate" then some (24 * 60 * 60 * 1000)
  else if k = "onsData" then some (12 * 60 * 60 * 1000)
  else if k = "crimeData" then some (7 * 24 * 60 * 60 * 1000)
  else if k = "landRegistry" then some (24 * 60 * 60 * 1000)
  else none

/-- Source `FreeRealTimeDataProvider.setCache(key, value)`:
`duration = this.cacheDuration[key] || 3600000` (default 1 hour), expiry
`Date.now() + duration`. -/
def setCache {α : Type} (st : CacheState α) (now : ℤ) (k : String)
    (value : α) : CacheState α :=
  let duration := jsOrInt (cacheDuration k) (60 * 60 * 1000)
  ⟨fun k' => if k' = k then some value else st.cache k',
   fun k' => if k' = k then some (now + duration) else st.cacheExpiry k'⟩

/-- One element of the police API response (only `category` is read). -/
structure Crime where
  category : String
  deriving DecidableEq

/-- Source `FreeRealTimeDataProvider.categorizeCrimes(crimes)`. -/
def categorizeCrimes (crimes : List Crime) : List (String × ℕ) :=
  histogram (crimes.map (·.category))

/-- The fallback snapshot returned by `getPoliceData` when the fetch
fails. -/
def fallbackCrime : CrimeData :=
  ⟨25, 300, [], some "fallback"⟩

/-- Source `FreeRealTimeDataProvider.getPoliceData(lat, lng)`.  `lat`/`lng` enter
as their JS string forms (used only to build the cache key
`crime_<lat>_<lng>`); `fetchResult` is the outcome of the network fetch
(`none` = the fetch threw / non-ok status).  The `some`-wrapped result
models the JS return value; on a cache hit the source returns
`this.cache.get(key)`, possible absence of which is the `Option`. -/
def getPoliceData (st : CacheState CrimeData) (now : ℤ) (lat lng : String)
    (fetchResult : Option (List Crime)) :
    Option CrimeData × CacheState CrimeData :=
  let cacheKey := "crime_" ++ lat ++ "_" ++ lng
  let c := isCached st now cacheKey
  if c.1 then (getFromCache c.2 cacheKey, c.2)
  else
    match fetchResult with
    | some crimes =>
      let crimeData : CrimeData :=
        ⟨crimes.length, (crimes.length : ℚ) * 12, categorizeCrimes crimes,
          none⟩
      (some crimeData, setCache c.2 now cacheKey crimeData)
    | none => (some fallbackCrime, c.2)

/-- Building one sales record from the split fields of a CSV line
(`parts.length >= 12` guaranteed by the caller); every field goes through
`replace(/"/g, "")`. -/
def mkSale (parts : List (List Char)) : SaleRecord :=
  { price := jsParseInt (stripQuotes (parts.getD 1 []))
    date := String.mk (stripQuotes (parts.getD 2 []))
    propertyType := String.mk (stripQuotes (parts.getD 4 []))
    newBuild := String.mk (stripQuotes (parts.getD 5 []))
    tenure := String.mk (stripQuotes (parts.getD 6 []))
    address := String.mk (stripQuotes
      (parts.getD 7 [] ++ [' '] ++ parts.getD 8 [] ++ [' '] ++
        parts.getD 9 []))
    postcode := String.mk (stripQuotes (parts.getD 3 [])) }

/-- The collection loop of `parseLandRegistryCSV`: walk the lines after
the header while fewer than `cap` records have been pushed; a trimmed
empty line is skipped (`continue`), a line with fewer than 12
comma-separated fields is skipped, any other line is pushed (the `try`
block catches nothing: `parseInt` never throws, it yields `NaN`). -/
def collectSales : List (List Char) → ℕ → List SaleRecord
  | _, 0 => []
  | [], _ => []
  | l :: ls, cap + 1 =>
    let line := trimChars l
    if line = [] then collectSales ls (cap + 1)
    else
      let parts := splitChar ',' line
      if parts.length ≥ 12 then mkSale parts :: collectSales ls cap
      else collectSales ls (cap + 1)

/-- Source `FreeRealTimeDataProvider.parseLandRegistryCSV(csvData)`: split on
newlines, skip the header line, collect at most 50 records, then
`sales.sort((a, b) => new Date(b.date) - new Date(a.date))` — sort
descending by date.  `dateKey` models `new Date(s).getTime()`
(milliseconds, an integer). -/
def parseLandRegistryCSV (dateKey : String → ℤ) (csvData : String) :
    List SaleRecord :=
  let lines := splitChar '\n' csvData.data
  let sales := collectSales (lines.drop 1) 50
  sales.insertionSort (fun a b => dateKey b.date ≤ dateKey a.date)

/-- Source `FreeRealTimeDataProvider.getLandRegistryData(postcode)`.  The cache
key is built from the raw postcode; `fetchResult` is the CSV payload of
the fetch (`none` = the fetch threw, in which case the `catch` returns
`[]`).  On a cache hit the cached list is returned (`.getD []` covers the
vacuous case of a hit with no stored value). -/
def getLandRegistryData (dateKey : String → ℤ)
    (st : CacheState (List SaleRecord)) (now : ℤ) (postcode : String)
    (fetchResult : Option String) :
    List SaleRecord × CacheState (List SaleRecord) :=
  let cacheKey := "landRegistry_" ++ postcode
  let c := isCached st now cacheKey
  if c.1 then ((getFromCache c.2 cacheKey).getD [], c.2)
  else
    match fetchResult with
    | some csvData =>
      let sales := parseLandRegistryCSV dateKey csvData
      (sales, setCache c.2 now cacheKey sales)
    | none => ([], c.2)

/-- Source `calculateEnhancedMetrics(recentSales, economicData, crimeData)` from
`real-time-data.js`.  A `NaN` price (`none`) fails the `price > 0` filter,
exactly as in JS. -/
def calculateEnhancedMetrics (recentSales : List SaleRecord)
    (economicData : Option EconomicData) (crimeData : Option CrimeData) :
    EnhancedMetrics :=
  let salesMetrics : Option ℚ × Option ℚ × Option (List (String × ℕ)) :=
    if recentSales.length > 0 then
      let prices := (recentSales.map (·.price)).filterMap
        (fun p => p.bind (fun v => if v > 0 then some v else none))
      let averagePrice : Option ℚ :=
        if prices.length > 0 then
          some ((jsRound ((prices.sum : ℚ) / (prices.length : ℚ))) : ℚ)
        else none
      let priceGrowth : Option ℚ :=
        if prices.length ≥ 3 then
          let oldPrices := prices.drop (prices.length - 3)
          let newPrices := prices.take 3
          let oldAvg := (oldPrices.sum : ℚ) / (oldPrices.length : ℚ)
          let newAvg := (newPrices.sum : ℚ) / (newPrices.length : ℚ)
          some (((newAvg - oldAvg) / oldAvg) * 100)
        else none
      let propertyTypes := histogram (recentSales.map (·.propertyType))
      (averagePrice, priceGrowth, some propertyTypes)
    else (none, none, none)
  { averagePrice := salesMetrics.1
    priceGrowth := salesMetrics.2.1
    propertyTypes := salesMetrics.2.2
    economicImpact := economicData.map (fun e =>
      ⟨(6 - e.baseRate) * 0.5,
       if e.inflation > 3 then -0.5 else 0.5,
       if e.unemploymentRate > 5 then -0.3 else 0.3⟩)
    crimeImpact := crimeData.map (fun c =>
      ⟨c.crimeRate, max 1 (10 - c.crimeRate / 50)⟩) }

/-- The `crime` field of the `dataQuality` descriptor assembled by
`getEnhancedPropertyData`:
`crimeData?.source !== "fallback" ? "live" : "fallback"`. -/
def dataQualityCrime (crimeData : Option CrimeData) : String :=
  if crimeData.bind (·.source) ≠ some "fallback" then "live" else "fallback"

/-- The `recentSales` field of the `dataQuality` descriptor:
`recentSales.length > 0 ? "live" : "unavailable"`. -/
def dataQualityRecentSales (recentSales : List SaleRecord) : String :=
  if recentSales.length > 0 then "live" else "unavailable"

theorem genAux_length (rand : ℕ → ℚ) (cy : ℤ) (d : EnhancedData)
    (pc ac : String) (cyld : ℚ) :
    ∀ (years : List ℕ) (price : ℚ),
      (genAux rand cy d pc ac cyld years price).length = years.length := by
  intro years
  induction years with
  | nil => intro price; rfl
  | cons y ys ih => intro price; simp [genAux, ih]

theorem genAux_map_year (rand : ℕ → ℚ) (cy : ℤ) (d : EnhancedData)
    (pc ac : String) (cyld : ℚ) :
    ∀ (years : List ℕ) (price : ℚ),
      (genAux rand cy d pc ac cyld years price).map (·.year) =
        years.map (fun y => cy + (y : ℤ)) := by
  intro years
  induction years with
  | nil => intro price; rfl
  | cons y ys ih =>
    intro price
    simp only [genAux, List.map_cons, ih]
    refine congrArg (· :: _) ?_
    rfl

/-- C1: for every jitter stream, calendar year, postcode and
`EnhancedPropertyData` input, `generatePredictions` returns exactly 5
`YearPrediction` entries whose `year` fields are `currentYear + 1` through
`currentYear + 5`, strictly increasing. -/
theorem claim1_generatePredictions_five_increasing_years (rand : ℕ → ℚ)
    (currentYear : ℤ) (d : EnhancedData) (postcode : String) :
    (generatePredictions rand currentYear d postcode).length = 5 ∧
    (generatePredictions rand currentYear d postcode).map (·.year) =
      [currentYear + 1, currentYear + 2, currentYear + 3, currentYear + 4,
       currentYear + 5] ∧
    List.Chain' (fun p q => p.year < q.year)
      (generatePredictions rand currentYear d postcode) := by
  unfold generatePredictions
  refine ⟨by rw [genAux_length]; rfl, ?_, ?_⟩
  · rw [genAux_map_year]; norm_num
  · rw [← List.chain'_map (R := (· < ·)) (fun p : YearPrediction => p.year),
      genAux_map_year]
    norm_num [List.chain'_cons]

theorem jsRound_le_of_le {x : ℚ} {n : ℤ} (h : x ≤ (n : ℚ)) :
    jsRound x ≤ n := by
  unfold jsRound
  have h1 : (⌊x + 1/2⌋ : ℤ) ≤ ⌊(n : ℚ) + 1/2⌋ := Int.floor_mono (by linarith)
  have h2 : (⌊(n : ℚ) + 1/2⌋ : ℤ) = n := by
    rw [add_comm, Int.floor_add_int]
    norm_num
  omega

theorem le_jsRound_of_le {x : ℚ} {n : ℤ} (h : (n : ℚ) ≤ x) :
    n ≤ jsRound x := by
  unfold jsRound
  have h1 : (⌊(n : ℚ) + 1/2⌋ : ℤ) ≤ ⌊x + 1/2⌋ := Int.floor_mono (by linarith)
  have h2 : (⌊(n : ℚ) + 1/2⌋ : ℤ) = n := by
    rw [add_comm, Int.floor_add_int]
    norm_num
  omega

theorem yield_round_bound (z : ℚ) :
    (3/2 : ℚ) ≤ (jsRound (max z 1.5 * 100) : ℚ) / 100 := by
  have h : (150 : ℚ) ≤ max z 1.5 * 100 := by
    have := le_max_right z (1.5 : ℚ)
    linarith
  have h2 : (150 : ℤ) ≤ jsRound (max z 1.5 * 100) :=
    le_jsRound_of_le (by exact_mod_cast h)
  have h3 : (150 : ℚ) ≤ (jsRound (max z 1.5 * 100) : ℚ) := by exact_mod_cast h2
  linarith

theorem conf_round_bound {c : ℚ} (h1 : 1/2 ≤ c) (h2 : c ≤ 19/20) :
    (1/2 : ℚ) ≤ (jsRound (c * 100) : ℚ) / 100 ∧
      (jsRound (c * 100) : ℚ) / 100 ≤ 19/20 := by
  have hlo : (50 : ℤ) ≤ jsRound (c * 100) :=
    le_jsRound_of_le (by push_cast; linarith)
  have hhi : jsRound (c * 100) ≤ (95 : ℤ) :=
    jsRound_le_of_le (by push_cast; linarith)
  have hlo' : (50 : ℚ) ≤ (jsRound (c * 100) : ℚ) := by exact_mod_cast hlo
  have hhi' : (jsRound (c * 100) : ℚ) ≤ 95 := by exact_mod_cast hhi
  constructor <;> linarith

theorem clamp_bounds (c : ℚ) :
    1/2 ≤ max (min c 0.95) 0.5 ∧ max (min c 0.95) 0.5 ≤ 19/20 := by
  constructor
  · have h : (0.5 : ℚ) ≤ max (min c 0.95) 0.5 := le_max_right _ _
    linarith [h]
  · apply max_le
    · have h : min c (0.95 : ℚ) ≤ 0.95 := min_le_right _ _
      linarith [h]
    · norm_num

theorem confidence_clamped (d : EnhancedData) (year : ℕ) (areaCode : String) :
    1/2 ≤ calculateUniversalConfidence d year areaCode ∧
      calculateUniversalConfidence d year areaCode ≤ 19/20 := by
  simp only [calculateUniversalConfidence]
  exact clamp_bounds _

theorem predStep_bounds (rand : ℕ → ℚ) (cy : ℤ) (d : EnhancedData)
    (pc ac : String) (cyld : ℚ) (y : ℕ) (price : ℚ) :
    (3/2 : ℚ) ≤ ((predStep rand cy d pc ac cyld y price).1).predictedYield ∧
    (1/2 : ℚ) ≤ ((predStep rand cy d pc ac cyld y price).1).confidence ∧
    ((predStep rand cy d pc ac cyld y price).1).confidence ≤ 19/20 := by
  obtain ⟨hc1, hc2⟩ := confidence_clamped d y ac
  refine ⟨?_, ?_, ?_⟩
  · exact yield_round_bound _
  · exact (conf_round_bound hc1 hc2).1
  · exact (conf_round_bound hc1 hc2).2

theorem genAux_forall (rand : ℕ → ℚ) (cy : ℤ) (d : EnhancedData)
    (pc ac : String) (cyld : ℚ) (P : YearPrediction → Prop)
    (h : ∀ (y : ℕ) (price : ℚ),
      P ((predStep rand cy d pc ac cyld y price).1)) :
    ∀ (years : List ℕ) (price : ℚ),
      List.Forall P (genAux rand cy d pc ac cyld years price) := by
  intro years
  induction years with
  | nil => intro price; trivial
  | cons y ys ih =>
    intro price
    rw [genAux, List.forall_cons]
    exact ⟨h y price, ih _⟩

theorem calculateRisk_clamped (volatilityFn : List ℚ → ℚ)
    (d : EnhancedData) (predictions : List YearPrediction)
    (postcode : String) :
    1 ≤ calculateRisk volatilityFn d predictions postcode ∧
      calculateRisk volatilityFn d predictions postcode ≤ 10 := by
  unfold calculateRisk
  refine ⟨le_min (le_max_right _ _) (by norm_num), min_le_right _ _⟩

/-- C2: for every jitter stream, calendar year, postcode,
`EnhancedPropertyData` input and every volatility (square-root) oracle:
each of the 5 predictions returned by `generatePredictions` has
`predictedYield ≥ 1.5` and `confidence ∈ [0.5, 0.95]`, and
`calculateRisk` applied to those predictions returns an integer in
`[1, 10]`. -/
theorem claim2_yield_confidence_risk_bounds (rand : ℕ → ℚ)
    (currentYear : ℤ) (d : EnhancedData) (postcode : String)
    (volatilityFn : List ℚ → ℚ) :
    List.Forall (fun p =>
        (3/2 : ℚ) ≤ p.predictedYield ∧
        (1/2 : ℚ) ≤ p.confidence ∧ p.confidence ≤ 19/20)
      (generatePredictions rand currentYear d postcode) ∧
    1 ≤ calculateRisk volatilityFn d
        (generatePredictions rand currentYear d postcode) postcode ∧
    calculateRisk volatilityFn d
        (generatePredictions rand currentYear d postcode) postcode ≤ 10 := by
  obtain ⟨h1, h2⟩ := calculateRisk_clamped volatilityFn d
    (generatePredictions rand currentYear d postcode) postcode
  refine ⟨?_, h1, h2⟩
  unfold generatePredictions
  exact genAux_forall _ _ _ _ _ _ _
    (fun y price => predStep_bounds _ _ _ _ _ _ y price) _ _

/-- Fixture: an `EnhancedPropertyData` with no live data at all. -/
def d0 : EnhancedData := ⟨none, [], none, emptyMetrics⟩

/-- Fixture: a flat `YearPrediction` (zero growth, zero yield). -/
def pred0 : YearPrediction := ⟨2026, 0, 0, 0, 0, 0, "detailed"⟩

/-- Fixture: five flat predictions. -/
def preds0 : List YearPrediction := List.replicate 5 pred0

/-- C4, counterexample: with no economic/crime data, five flat
predictions, `riskScore = 8` and an unmatched postcode, the accumulated
score is `-0.2 ≤ 2`, yet the label is `"SELL"`, not `"STRONG SELL"`: the
`score <= 2` branch of the source is shadowed by the preceding
`score <= 3` branch. -/
theorem claim4_counterexample :
    (recommendationScore d0 preds0 8 "ZZ9 9ZZ").1 ≤ 2 ∧
    (generateRecommendation d0 preds0 8 "ZZ9 9ZZ").recommendation =
      "SELL" := by
  have hac : extractAreaCode "ZZ9 9ZZ" = "DEFAULT" := by decide
  have hsc : (recommendationScore d0 preds0 8 "ZZ9 9ZZ").1 = -0.2 := by
    simp only [recommendationScore, hac, d0, preds0, pred0]
    norm_num [List.replicate, emptyMetrics, getDataQualityScore]
  refine ⟨by rw [hsc]; norm_num, ?_⟩
  have hlab : (generateRecommendation d0 preds0 8 "ZZ9 9ZZ").recommendation =
      recommendationLabel (recommendationScore d0 preds0 8 "ZZ9 9ZZ").1 := rfl
  rw [hlab, hsc]
  unfold recommendationLabel
  norm_num

/-- C4, amended: the label returned by `generateRecommendation` follows
the source's sequential chain on the accumulated score `s`:
`s ≥ 7.5` gives `"STRONG BUY"`, `6 ≤ s < 7.5` gives `"BUY"`, `s ≤ 3`
gives `"SELL"` (including every `s ≤ 2`: the `"STRONG SELL"` branch is
shadowed and unreachable), and `3 < s < 6` gives `"HOLD"`; no input is
ever labeled `"STRONG SELL"`. -/
theorem claim4_label_mapping (d : EnhancedData)
    (predictions : List YearPrediction) (riskScore : ℤ)
    (postcode : String) :
    ((recommendationScore d predictions riskScore postcode).1 ≥ 7.5 →
      (generateRecommendation d predictions riskScore postcode).recommendation
        = "STRONG BUY") ∧
    (6 ≤ (recommendationScore d predictions riskScore postcode).1 ∧
        (recommendationScore d predictions riskScore postcode).1 < 7.5 →
      (generateRecommendation d predictions riskScore postcode).recommendation
        = "BUY") ∧
    ((recommendationScore d predictions riskScore postcode).1 ≤ 3 →
      (generateRecommendation d predictions riskScore postcode).recommendation
        = "SELL") ∧
    (3 < (recommendationScore d predictions riskScore postcode).1 ∧
        (recommendationScore d predictions riskScore postcode).1 < 6 →
      (generateRecommendation d predictions riskScore postcode).recommendation
        = "HOLD") ∧
    (generateRecommendation d predictions riskScore postcode).recommendation
      ≠ "STRONG SELL" := by
  have hlab :
      (generateRecommendation d predictions riskScore postcode).recommendation
        = recommendationLabel
            (recommendationScore d predictions riskScore postcode).1 := rfl
  rw [hlab]
  set s := (recommendationScore d predictions riskScore postcode).1 with hs
  unfold recommendationLabel
  refine ⟨fun h => ?_, fun h => ?_, fun h => ?_, fun h => ?_, ?_⟩
  · rw [if_pos h]
  · rw [if_neg (by linarith [h.2]), if_pos (by linarith [h.1])]
  · rw [if_neg (by norm_num; linarith), if_neg (by norm_num; linarith),
      if_pos h]
  · rw [if_neg (by norm_num; linarith [h.2]),
      if_neg (by norm_num; linarith [h.2]), if_neg (by norm_num; linarith [h.1]),
      if_neg (by norm_num; linarith [h.1])]
  · split_ifs with h1 h2 h3 h4
    · decide
    · decide
    · decide
    · exfalso
      norm_num at h3 h4
      linarith
    · decide

/-- C4, witness for the amended mapping: the concrete fixture of the
counterexample has score `-0.2 ≤ 3` and is labeled `"SELL"`. -/
theorem claim4_label_mapping_witness :
    (generateRecommendation d0 preds0 8 "ZZ9 9ZZ").recommendation =
      "SELL" :=
  (claim4_label_mapping d0 preds0 8 "ZZ9 9ZZ").2.2.1 (by
    have hac : extractAreaCode "ZZ9 9ZZ" = "DEFAULT" := by decide
    simp only [recommendationScore, hac, d0, preds0, pred0]
    norm_num [List.replicate, emptyMetrics, getDataQualityScore])

theorem predStep_rand_congr {r1 r2 : ℕ → ℚ} (cy : ℤ) (d : EnhancedData)
    (pc ac : String) (cyld : ℚ) (y : ℕ) (price : ℚ)
    (h : r1 y = r2 y) :
    predStep r1 cy d pc ac cyld y price =
      predStep r2 cy d pc ac cyld y price := by
  unfold predStep
  rw [h]

theorem genAux_rand_congr {r1 r2 : ℕ → ℚ} (cy : ℤ) (d : EnhancedData)
    (pc ac : String) (cyld : ℚ) (h : ∀ n, r1 n = r2 n) :
    ∀ (years : List ℕ) (price : ℚ),
      genAux r1 cy d pc ac cyld years price =
        genAux r2 cy d pc ac cyld years price := by
  intro years
  induction years with
  | nil => intro price; rfl
  | cons y ys ih =>
    intro price
    simp only [genAux]
    rw [predStep_rand_congr cy d pc ac cyld y price (h y), ih]

/-- C10: with the `Math.random()` jitter source stubbed to 0, two
invocations of `generatePredictions` on the same `EnhancedPropertyData`
fixture, the same postcode and the same calendar year produce identical
output (two-run determinism: the jitter stream is the only
nondeterminism source in the engine). -/
theorem claim10_two_run_determinism (r1 r2 : ℕ → ℚ) (currentYear : ℤ)
    (d : EnhancedData) (postcode : String)
    (h1 : ∀ n, r1 n = 0) (h2 : ∀ n, r2 n = 0) :
    generatePredictions r1 currentYear d postcode =
      generatePredictions r2 currentYear d postcode := by
  unfold generatePredictions
  exact genAux_rand_congr currentYear d postcode _ _
    (fun n => by rw [h1 n, h2 n]) _ _

/-- C10, witness: two invocations with the zero jitter stream on the
no-data fixture and postcode `"M1 1AA"` agree. -/
theorem claim10_two_run_determinism_witness :
    generatePredictions (fun _ => 0) 2025 d0 "M1 1AA" =
      generatePredictions (fun _ => 0) 2025 d0 "M1 1AA" :=
  claim10_two_run_determinism (fun _ => 0) (fun _ => 0) 2025 d0 "M1 1AA"
    (fun _ => rfl) (fun _ => rfl)

/-- C8: cache entries are only served within their TTL.  For every key
holding a (nonzero) expiry timestamp that has passed, an `isCached`
lookup evicts the entry from both the value map and the expiry map and
reports absent; and whenever `isCached` reports present, the key's expiry
has not passed (the cache never serves stale data). -/
theorem claim8_cache_expiry_eviction (α : Type) (st : CacheState α)
    (now : ℤ) (k : String) :
    (∀ e : ℤ, st.cacheExpiry k = some e → e ≠ 0 → e < now →
      isCached st now k = (false, eraseKey st k)) ∧
    ((isCached st now k).1 = true →
      ∃ e : ℤ, st.cacheExpiry k = some e ∧ now ≤ e) := by
  constructor
  · intro e he hne hlt
    unfold isCached
    rw [he]
    dsimp only
    rw [if_neg hne, if_pos hlt]
  · intro h
    unfold isCached at h
    cases hc : st.cacheExpiry k with
    | none => rw [hc] at h; simp at h
    | some e =>
      rw [hc] at h
      dsimp only at h
      by_cases h0 : e = 0
      · rw [if_pos h0] at h; simp at h
      · rw [if_neg h0] at h
        by_cases hlt : now > e
        · rw [if_pos hlt] at h; simp at h
        · rw [if_neg hlt] at h
          exact ⟨e, rfl, by omega⟩

/-- A concrete one-entry cache used to witness the eviction behaviour. -/
def wCache : CacheState ℤ :=
  ⟨fun k => if k = "bankRate" then some 5 else none,
   fun k => if k = "bankRate" then some 100 else none⟩

/-- C8, witness: a lookup at time 200 on a key that expired at time 100
evicts the entry and reports absent. -/
theorem claim8_cache_expiry_eviction_witness :
    isCached wCache 200 "bankRate" = (false, eraseKey wCache "bankRate") :=
  (claim8_cache_expiry_eviction ℤ wCache 200 "bankRate").1 100 rfl
    (by decide) (by decide)

/-- C6: on a cache miss, when the crime fetch for a coordinate pair
fails, `getPoliceData` returns exactly the fallback snapshot
(`totalCrimes = 25`, `crimeRate = 300`, `source = "fallback"`, no cache
write), and on that snapshot `calculateMarketConditions` applies no
safety-score adjustment: its crime term is 0, so the whole market
adjustment is just the sales-activity term. -/
theorem claim6_police_fetch_failure_fallback (st : CacheState CrimeData)
    (now : ℤ) (lat lng : String)
    (hmiss : (isCached st now ("crime_" ++ lat ++ "_" ++ lng)).1 = false) :
    getPoliceData st now lat lng none =
      (some fallbackCrime,
        (isCached st now ("crime_" ++ lat ++ "_" ++ lng)).2) ∧
    fallbackCrime.totalCrimes = 25 ∧
    fallbackCrime.crimeRate = 300 ∧
    fallbackCrime.source = some "fallback" ∧
    (∀ (m : EnhancedMetrics) (sales : List SaleRecord) (year : ℕ),
      crimeAdjustment (some fallbackCrime) m = 0 ∧
      calculateMarketConditions (some fallbackCrime) m sales year =
        activityAdjustment sales) := by
  refine ⟨?_, rfl, rfl, rfl, ?_⟩
  · simp only [getPoliceData, hmiss]
    rfl
  · intro m sales year
    have hz : crimeAdjustment (some fallbackCrime) m = 0 := by
      simp [crimeAdjustment, fallbackCrime]
    exact ⟨hz, by simp [calculateMarketConditions, hz]⟩

/-- C6, witness: the fallback path evaluated on the empty cache at
coordinates `(51.5, -0.1)`. -/
theorem claim6_police_fetch_failure_fallback_witness :
    getPoliceData (emptyCache CrimeData) 0 "51.5" "-0.1" none =
      (some fallbackCrime,
        (isCached (emptyCache CrimeData) 0
          ("crime_" ++ "51.5" ++ "_" ++ "-0.1")).2) :=
  (claim6_police_fetch_failure_fallback (emptyCache CrimeData) 0
    "51.5" "-0.1" rfl).1

/-- C9: the `cacheDuration` table does configure 7 days for `crimeData`
and 24 hours for `landRegistry`, but the dynamic cache keys actually used
by `getPoliceData` (`crime_<lat>_<lng>`) and `getLandRegistryData`
(`landRegistry_<postcode>`) never match those table keys, so both writes
fall back to the 1-hour default TTL (3600000 ms) — contradicting the
claimed 7-day / 24-hour expiries. -/
theorem claim9_cache_duration_key_mismatch :
    cacheDuration "crimeData" = some 604800000 ∧
    cacheDuration "landRegistry" = some 86400000 ∧
    cacheDuration ("crime_" ++ "52.5" ++ "_" ++ "-1.9") = none ∧
    cacheDuration ("landRegistry_" ++ "M1 1AA") = none ∧
    ((getPoliceData (emptyCache CrimeData) 0 "52.5" "-1.9"
        (some [])).2.cacheExpiry ("crime_" ++ "52.5" ++ "_" ++ "-1.9")) =
      some 3600000 ∧
    ((getLandRegistryData (fun _ => 0) (emptyCache (List SaleRecord)) 0
        "M1 1AA" (some "")).2.cacheExpiry
          ("landRegistry_" ++ "M1 1AA")) =
      some 3600000 ∧
    (3600000 : ℤ) ≠ 604800000 ∧ (3600000 : ℤ) ≠ 86400000 := by
  refine ⟨by decide, by decide, by decide, by decide, by decide, by decide,
    by decide, by decide⟩

/-- C7: the `crime` field of the `dataQuality` descriptor evaluates to
`"live"` when `crimeData` is absent (coordinates unavailable), because
`crimeData?.source` is `undefined`, which differs from `"fallback"` —
contradicting the claim that `crime` is marked `"live"` only when a live
crime fetch succeeded.  (On the fallback snapshot it correctly reports
`"fallback"`, and on a live snapshot `"live"`.) -/
theorem claim7_dataQuality_crime_live_when_absent :
    dataQualityCrime none = "live" ∧
    dataQualityCrime (some fallbackCrime) = "fallback" ∧
    dataQualityCrime (some ⟨7, 84, [], none⟩) = "live" := by
  refine ⟨by decide, by decide, by decide⟩

theorem collectSales_zero (lines : List (List Char)) :
    collectSales lines 0 = [] := by
  cases lines <;> rfl

theorem collectSales_skip_short (bad : List Char)
    (hbad : (splitChar ',' (trimChars bad)).length < 12) :
    ∀ (pre post : List (List Char)) (cap : ℕ),
      collectSales (pre ++ bad :: post) cap =
        collectSales (pre ++ post) cap := by
  intro pre
  induction pre with
  | nil =>
    intro post cap
    cases cap with
    | zero => rw [collectSales_zero, collectSales_zero]
    | succ c =>
      simp only [List.nil_append, collectSales]
      by_cases h1 : trimChars bad = []
      · simp only [if_pos h1]
      · simp only [if_neg h1,
          if_neg (show ¬(splitChar ',' (trimChars bad)).length ≥ 12 by omega)]
  | cons l pre' ih =>
    intro post cap
    cases cap with
    | zero => rw [collectSales_zero, collectSales_zero]
    | succ c =>
      simp only [List.cons_append, collectSales, List.append_eq]
      by_cases h1 : trimChars l = []
      · simp only [if_pos h1, ih]
      · by_cases h2 : (splitChar ',' (trimChars l)).length ≥ 12
        · simp only [if_neg h1, if_pos h2, ih]
        · simp only [if_neg h1, if_neg h2, ih]

theorem collectSales_length_le :
    ∀ (lines : List (List Char)) (cap : ℕ),
      (collectSales lines cap).length ≤ cap := by
  intro lines
  induction lines with
  | nil => intro cap; cases cap <;> simp [collectSales]
  | cons l ls ih =>
    intro cap
    cases cap with
    | zero => simp [collectSales]
    | succ c =>
      simp only [collectSales]
      by_cases h1 : trimChars l = []
      · rw [if_pos h1]; exact ih _
      · rw [if_neg h1]
        by_cases h2 : (splitChar ',' (trimChars l)).length ≥ 12
        · rw [if_pos h2]
          simp only [List.length_cons]
          have := ih c
          omega
        · rw [if_neg h2]; exact ih _

/-- C5, counterexample: a line with 12 comma-separated fields whose price
field is not numeric is NOT skipped — `parseInt` yields `NaN` (here
`none`) and the record is pushed anyway, refuting "skips every line that
has ... a field that fails numeric/date parsing". -/
theorem claim5_counterexample :
    parseLandRegistryCSV (fun _ => 0)
        "header\nid,notanumber,2024-01-01,M1 1AA,D,N,F,1,High,St,x,y" =
      [{ price := none, date := "2024-01-01", propertyType := "D",
         newBuild := "N", tenure := "F", address := "1 High St",
         postcode := "M1 1AA" }] := by
  decide

/-- C5, amended: `parseLandRegistryCSV` skips — without aborting the rest
of the parse — every line that has fewer than 12 comma-separated fields
(lines with 12 or more fields are always kept, even when a numeric field
fails to parse: the `NaN` price is excluded later by the positive-price
filter of the fusion layer); it returns at most 50 records, sorted
descending by date; and a payload with 0 valid records flows through
fusion to an absent `averagePrice` rather than an error. -/
theorem claim5_parse_skip_cap_sort_fusion :
    (∀ (dateKey : String → ℤ) (csvData : String),
      (parseLandRegistryCSV dateKey csvData).length ≤ 50 ∧
      List.Sorted (fun a b => dateKey b.date ≤ dateKey a.date)
        (parseLandRegistryCSV dateKey csvData)) ∧
    (∀ (pre post : List (List Char)) (bad : List Char) (cap : ℕ),
      (splitChar ',' (trimChars bad)).length < 12 →
      collectSales (pre ++ bad :: post) cap =
        collectSales (pre ++ post) cap) ∧
    (∀ (econ : Option EconomicData) (crime : Option CrimeData),
      (calculateEnhancedMetrics [] econ crime).averagePrice = none) := by
  refine ⟨?_, fun pre post bad cap h => collectSales_skip_short bad h pre post cap,
    fun econ crime => rfl⟩
  intro dateKey csvData
  constructor
  · unfold parseLandRegistryCSV
    rw [List.length_insertionSort]
    exact collectSales_length_le _ _
  · unfold parseLandRegistryCSV
    haveI : IsTotal SaleRecord
        (fun a b => dateKey b.date ≤ dateKey a.date) :=
      ⟨fun a b => le_total _ _⟩
    haveI : IsTrans SaleRecord
        (fun a b => dateKey b.date ≤ dateKey a.date) :=
      ⟨fun _ _ _ hab hbc => le_trans hbc hab⟩
    exact List.sorted_insertionSort _ _

/-- C5, witness for the amended statement: a 2-field line is skipped while
the 12-field line after it is still parsed. -/
theorem claim5_parse_skip_witness :
    collectSales
        ["a,b".data,
         "id,\"250000\",2024-01-01,M1 1AA,D,N,F,1,High,St,x,y".data] 50 =
      collectSales
        ["id,\"250000\",2024-01-01,M1 1AA,D,N,F,1,High,St,x,y".data] 50 :=
  claim5_parse_skip_cap_sort_fusion.2.1 [] _ "a,b".data 50 (by decide)

end UKProp
